import Mathlib

/- Shallow embedding of the SynPlanner MCTS search-node state
(src/synplan/mcts/node.py, class Node): the constructor, the length
query, the terminal-state query and the textual representation, together
with proofs of the specified properties. -/

namespace SynPlan

variable {α : Type}

/-- Failure raised inside the constructor when the length computation is
applied to an absent (None) pending sequence; the specification names
this failure MissingInputError. -/
inductive InitError where
  | missingInput
deriving DecidableEq

/-- Failure raised when reading an object attribute that the constructor
never set. -/
inductive AttrError where
  | attributeError
deriving DecidableEq

/-- Value stored in the curr_precursor attribute: either the first
element of the pending sequence, or the empty tuple used as an explicit
empty marker when the pending sequence is empty. -/
inductive CurrVal (α : Type) where
  | elem (a : α)
  | emptySeq
deriving DecidableEq

/-- The attributes a successfully constructed Node object carries.  The
field next_precursor is optional because the constructor sets it only
when the pending sequence is non-empty. -/
structure Node (α : Type) where
  precursors_to_expand : List α
  new_precursors : Option (List α)
  curr_precursor : CurrVal α
  next_precursor : Option (List α)
deriving DecidableEq

/-- The constructor of Node.  Both parameters default to None, modelled
as none.  It stores both inputs, then takes the length of the pending
sequence, which fails when that input is absent; the branch on length
zero corresponds to the match on the empty list, and for a non-empty
pending sequence curr_precursor receives the element at index zero and
next_precursor the slice from index one. -/
def Node.init (precursors_to_expand : Option (List α))
    (new_precursors : Option (List α)) : Except InitError (Node α) :=
  match precursors_to_expand with
  | none => .error .missingInput
  | some [] =>
      .ok { precursors_to_expand := [], new_precursors := new_precursors,
            curr_precursor := .emptySeq, next_precursor := none }
  | some (a :: rest) =>
      .ok { precursors_to_expand := a :: rest,
            new_precursors := new_precursors,
            curr_precursor := .elem a, next_precursor := some rest }

/-- The length query of Node: the number of precursors in the node still
to expand. -/
def Node.len (n : Node α) : Nat :=
  n.precursors_to_expand.length

/-- The terminal-state query of Node: true when there are no precursors
left for expansion. -/
def Node.is_solved (n : Node α) : Bool :=
  n.precursors_to_expand.length == 0

/-- The textual representation of Node: renders new_precursors and
precursors_to_expand.  The element-level rendering performed by the host
string conversion is abstracted by the two renderer parameters.  The
result is paired with the object state after the call, which makes the
absence of mutation a provable statement. -/
def Node.reprOut (ρo : Option (List α) → String) (ρl : List α → String)
    (n : Node α) : String × Node α :=
  ("New precursors: " ++ ρo n.new_precursors ++ "\n" ++
     "Precursors to expand: " ++ ρl n.precursors_to_expand ++ "\n", n)

/-- Reading the next_precursor attribute of a node: fails when the
constructor never set it. -/
def Node.getNext (n : Node α) : Except AttrError (List α) :=
  match n.next_precursor with
  | none => .error .attributeError
  | some t => .ok t

/-- The node produced by a successful construction from a present
pending sequence, written as a plain function of the two inputs; used
only to state and reuse the shape lemma below. -/
def initShape (p : List α) (np : Option (List α)) : Node α :=
  match p with
  | [] => { precursors_to_expand := [], new_precursors := np,
            curr_precursor := .emptySeq, next_precursor := none }
  | a :: rest => { precursors_to_expand := a :: rest,
                   new_precursors := np,
                   curr_precursor := .elem a, next_precursor := some rest }

/-- Helper: a successful construction from a present pending sequence
determines every field of the resulting node. -/
theorem init_ok_shape (p : List α) (np : Option (List α)) (n : Node α)
    (h : Node.init (some p) np = .ok n) : n = initShape p np := by
  cases p with
  | nil =>
    simp only [Node.init, Except.ok.injEq] at h
    exact h.symm
  | cons a rest =>
    simp only [Node.init, Except.ok.injEq] at h
    exact h.symm

/-- Claim C1: constructing a node from a non-empty pending sequence, with
any produced sequence, sets curr_precursor to the first element and
next_precursor to the remainder, and prepending that first element to the
remainder reconstructs the pending sequence exactly. -/
theorem init_nonempty_state (a : α) (rest : List α)
    (np : Option (List α)) :
    ∃ n : Node α, Node.init (some (a :: rest)) np = .ok n ∧
      n.curr_precursor = .elem a ∧ n.next_precursor = some rest ∧
      a :: rest = n.precursors_to_expand :=
  ⟨_, rfl, rfl, rfl, rfl⟩

/-- Claim C2: for every successfully constructed node, is_solved is true
exactly when precursors_to_expand is empty, and its result is a function
of that one field alone: any other constructed node with the same value
of that field reports the same result. -/
theorem is_solved_iff_empty (p np : Option (List α)) (n : Node α)
    (h : Node.init p np = .ok n) :
    (n.is_solved = true ↔ n.precursors_to_expand = []) ∧
    ∀ q nq (m : Node α), Node.init q nq = .ok m →
      m.precursors_to_expand = n.precursors_to_expand →
        m.is_solved = n.is_solved := by
  refine ⟨?_, ?_⟩
  · simp [Node.is_solved, List.length_eq_zero]
  · intro q nq m hm hpe
    simp [Node.is_solved, hpe]

/-- Concrete instance of claim C2: two constructed nodes carrying the
pending sequence with elements one and two, one with produced sequence
absent and one with a produced element, report the same result. -/
theorem is_solved_iff_empty_witness :
    ({ precursors_to_expand := [1, 2], new_precursors := some [3],
       curr_precursor := .elem 1, next_precursor := some [2] } :
        Node Nat).is_solved
      = ({ precursors_to_expand := [1, 2], new_precursors := none,
           curr_precursor := .elem 1, next_precursor := some [2] } :
            Node Nat).is_solved :=
  (is_solved_iff_empty (some [1, 2]) none _ rfl).2
    (some [1, 2]) (some [3]) _ rfl rfl

/-- Claim C3: constructing with the pending sequence absent fails with
the missing-input error, while constructing with the produced sequence
absent succeeds for every present pending sequence. -/
theorem missing_pending_errors (np : Option (List α)) (p : List α) :
    Node.init (α := α) none np = .error .missingInput ∧
    ∃ n : Node α, Node.init (some p) none = .ok n := by
  refine ⟨rfl, ?_⟩
  cases p with
  | nil => exact ⟨_, rfl⟩
  | cons a rest => exact ⟨_, rfl⟩

/-- Counterexample to claim C4: the node constructed from an empty
pending sequence is built successfully, yet reading its next_precursor
attribute fails, so derived-field access is not total on every
successfully constructed node. -/
theorem next_access_fails_on_empty :
    Node.init (α := Nat) (some []) (some []) =
      .ok { precursors_to_expand := [], new_precursors := some [],
            curr_precursor := .emptySeq, next_precursor := none } ∧
    Node.getNext (α := Nat)
      { precursors_to_expand := [], new_precursors := some [],
        curr_precursor := .emptySeq, next_precursor := none } =
      .error .attributeError :=
  ⟨rfl, rfl⟩

/-- Claim C4 as amended: for every successfully constructed node the size
query, the terminal check, curr_precursor and new_precursors are fully
determined and never fail, while next_precursor access succeeds exactly
when the pending sequence was non-empty. -/
theorem derived_access_characterised (p : List α) (np : Option (List α))
    (n : Node α) (h : Node.init (some p) np = .ok n) :
    n.len = p.length ∧ n.is_solved = (p.length == 0) ∧
    n.new_precursors = np ∧
    (p = [] → n.curr_precursor = .emptySeq) ∧
    (∀ a rest, p = a :: rest → n.curr_precursor = .elem a) ∧
    ((∃ t, n.getNext = .ok t) ↔ p ≠ []) := by
  obtain rfl := init_ok_shape p np n h
  cases p with
  | nil => simp [initShape, Node.len, Node.is_solved, Node.getNext]
  | cons a rest =>
    simp [initShape, Node.len, Node.is_solved, Node.getNext]

/-- Concrete instance of the amended claim C4: on the node built from the
one-element pending sequence, next_precursor access succeeds. -/
theorem derived_access_characterised_witness :
    (∃ t, Node.getNext
      ({ precursors_to_expand := [5], new_precursors := none,
         curr_precursor := .elem 5, next_precursor := some [] } :
          Node Nat) = .ok t) ↔ ([5] : List Nat) ≠ [] :=
  (derived_access_characterised [5] none _ rfl).2.2.2.2.2

/-- Claim C5: the size query returns exactly the number of elements of
the pending sequence used at construction, for the empty and the
non-empty case alike. -/
theorem len_counts_pending (p : List α) (np : Option (List α))
    (n : Node α) (h : Node.init (some p) np = .ok n) :
    n.len = p.length := by
  obtain rfl := init_ok_shape p np n h
  cases p <;> rfl

/-- Concrete instance of claim C5: the node built from a two-element
pending sequence reports size two. -/
theorem len_counts_pending_witness :
    ({ precursors_to_expand := [7, 8], new_precursors := none,
       curr_precursor := .elem 7, next_precursor := some [8] } :
        Node Nat).len = 2 :=
  len_counts_pending [7, 8] none _ rfl

/-- Claim C6: two nodes constructed from identical pending sequences but
arbitrarily different produced sequences give identical results for the
terminal check and for the size query. -/
theorem queries_ignore_new_precursors (p : List α)
    (np1 np2 : Option (List α)) (n1 n2 : Node α)
    (h1 : Node.init (some p) np1 = .ok n1)
    (h2 : Node.init (some p) np2 = .ok n2) :
    n1.is_solved = n2.is_solved ∧ n1.len = n2.len := by
  obtain rfl := init_ok_shape p np1 n1 h1
  obtain rfl := init_ok_shape p np2 n2 h2
  cases p <;> exact ⟨rfl, rfl⟩

/-- Concrete instance of claim C6: the nodes built from the pending
sequence with element three, with and without a produced sequence, agree
on the terminal check. -/
theorem queries_ignore_new_precursors_witness :
    ({ precursors_to_expand := [3], new_precursors := none,
       curr_precursor := .elem 3, next_precursor := some [] } :
        Node Nat).is_solved
      = ({ precursors_to_expand := [3], new_precursors := some [4, 4],
           curr_precursor := .elem 3, next_precursor := some [] } :
            Node Nat).is_solved :=
  (queries_ignore_new_precursors [3] none (some [4, 4]) _ _ rfl rfl).1

/-- Claim C7: constructing from an empty pending sequence sets
curr_precursor to the empty-sequence marker, derives no next_precursor,
and the node reports solved and size zero. -/
theorem empty_pending_state (np : Option (List α)) (n : Node α)
    (h : Node.init (some []) np = .ok n) :
    n.curr_precursor = .emptySeq ∧ n.next_precursor = none ∧
    n.is_solved = true ∧ n.len = 0 := by
  obtain rfl := init_ok_shape [] np n h
  exact ⟨rfl, rfl, rfl, rfl⟩

/-- Concrete instance of claim C7: the node built from the empty pending
sequence and a two-element produced sequence reports solved. -/
theorem empty_pending_state_witness :
    ({ precursors_to_expand := [], new_precursors := some [9, 9],
       curr_precursor := .emptySeq, next_precursor := none } :
        Node Nat).is_solved = true :=
  (empty_pending_state (some [9, 9]) _ rfl).2.2.1

/-- Claim C8: for every successfully constructed node the terminal check
is true exactly when the size query returns zero, and false exactly when
it returns a positive count. -/
theorem is_solved_iff_len_zero (p np : Option (List α)) (n : Node α)
    (h : Node.init p np = .ok n) :
    (n.is_solved = true ↔ n.len = 0) ∧
    (n.is_solved = false ↔ 0 < n.len) := by
  constructor
  · simp [Node.is_solved, Node.len]
  · simp [Node.is_solved, Node.len, Nat.pos_iff_ne_zero]

/-- Concrete instance of claim C8: on the node built from a one-element
pending sequence, the terminal check is false exactly when the size is
positive. -/
theorem is_solved_iff_len_zero_witness :
    ({ precursors_to_expand := [6], new_precursors := none,
       curr_precursor := .elem 6, next_precursor := some [] } :
        Node Nat).is_solved = false ↔
      0 < ({ precursors_to_expand := [6], new_precursors := none,
             curr_precursor := .elem 6, next_precursor := some [] } :
              Node Nat).len :=
  (is_solved_iff_len_zero (some [6]) none _ rfl).2

/-- Claim C9: the textual representation yields identical output when
called twice on the same node, and leaves every field of the node
unchanged; it never mutates the object. -/
theorem repr_idempotent_pure (ρo : Option (List α) → String)
    (ρl : List α → String) (n : Node α) :
    (n.reprOut ρo ρl).1 = ((n.reprOut ρo ρl).2.reprOut ρo ρl).1 ∧
    (n.reprOut ρo ρl).2.precursors_to_expand = n.precursors_to_expand ∧
    (n.reprOut ρo ρl).2.new_precursors = n.new_precursors ∧
    (n.reprOut ρo ρl).2.curr_precursor = n.curr_precursor ∧
    (n.reprOut ρo ρl).2.next_precursor = n.next_precursor :=
  ⟨rfl, rfl, rfl, rfl, rfl⟩

/-- Claim C10: the constructor stores the produced-sequence argument
exactly as supplied, so an omitted produced sequence is stored as the
absence marker and not defaulted to an empty sequence. -/
theorem new_precursors_stored_as_given (p : List α)
    (np : Option (List α)) (n : Node α)
    (h : Node.init (some p) np = .ok n) :
    n.new_precursors = np ∧ (np = none → n.new_precursors = none) := by
  obtain rfl := init_ok_shape p np n h
  cases p <;> exact ⟨rfl, fun h2 => h2⟩

/-- Concrete instance of claim C10: the node built with the produced
sequence omitted stores the absence marker. -/
theorem new_precursors_stored_as_given_witness :
    ({ precursors_to_expand := [1], new_precursors := none,
       curr_precursor := .elem 1, next_precursor := some [] } :
        Node Nat).new_precursors = none :=
  (new_precursors_stored_as_given [1] none _ rfl).1

end SynPlan
